import Mathlib

/-!
Verification development for the credential-loading layer of the repository
(file api/client/credentials.go). The development shallowly embeds the
credential loaders and the dynamic identity-file credential provider
(DynamicIdentityFileCreds) and proves the spec claims about them.

Modelling conventions:
- Parsed cryptographic objects (certificates, keys, signers) are opaque
  tokens (Nat). Their parsing and verification functions live outside src
  (packages identityfile, keys, sshutils, x509) and are therefore bundled
  as abstract function parameters in the structure Libs below, as the spec
  directs (the loader is an external collaborator, out of scope).
- Go errors are modelled by the inductive Err, which mirrors the structured
  error taxonomy of the trace package as used by this file: BadParameter,
  a converted system error, and a wrapped loader error. trace.Wrap adds
  only a stack trace in Go, so it is modelled as the identity on errors.
- Go nil pointers and nil slices are modelled by Option; mutation of a
  struct receiver is modelled by explicit state passing; closures that
  capture the provider pointer and read its fields at call time are
  modelled as functions taking the provider state current at call time.
-/

/-- Raw byte strings (certificate PEM blocks, key material). -/
abbrev Bytes := String

/-- An x509 certificate, as an opaque parsed token. -/
abbrev Cert := Nat

/-- A TLS client certificate keypair (tls.Certificate), opaque token. -/
abbrev TLSCert := Nat

/-- An x509 certificate pool: the list of certificates added to it. -/
abbrev CertPool := List Cert

/-- An SSH certificate (ssh.Certificate), opaque token. -/
abbrev SSHCert := Nat

/-- A private key usable for signing (crypto.Signer), opaque token. -/
abbrev CryptoSigner := Nat

/-- An SSH public key (ssh.PublicKey), opaque token. -/
abbrev SSHPublicKey := Nat

/-- A constructed SSH signer (ssh.Signer), opaque token. -/
abbrev SSHSignerTok := Nat

/-- The host key callback object built by sshutils.NewHostKeyCallback. -/
abbrev HostKeyCheckerTok := Nat

/-- The ssh.ClientConfig produced by the static identity loaders, opaque. -/
abbrev SSHCfgTok := Nat

/-- A filesystem snapshot: maps a path to the file contents, if present. -/
abbrev FS := String → Option Bytes

/-- Modelled from the spec: the parsed identity file returned by the external
loader (package identityfile, not under src). Certs holds the SSH and TLS
certificates, CACerts the SSH and TLS certificate-authority material. -/
structure IdentityFile where
  privateKey : Bytes
  certsSSH : Bytes
  certsTLS : Bytes
  caCertsSSH : List Bytes
  caCertsTLS : List Bytes
deriving DecidableEq

/-- Modelled from the spec: the loader error taxonomy of section 7 of the
spec. unavailable: backing material could not be read (I/O failure).
malformed: material was read but failed to parse. The identityfile loader
is outside src, so its error is classified at this granularity. -/
inductive LoaderErr where
  | unavailable (msg : String)
  | malformed (msg : String)
deriving DecidableEq

/-- The message text carried by a loader error, as printed by Go %v. -/
def loaderErrMsg : LoaderErr → String
  | .unavailable msg => msg
  | .malformed msg => msg

/-- Structured errors, mirroring the trace-package error forms this file
produces. badParameter models trace.BadParameter, systemError models
trace.ConvertSystemError on an I/O error, loader models an identityfile
loader error passed through trace.Wrap unchanged, runtimePanic marks a
spot where the Go code would panic at runtime. -/
inductive Err where
  | badParameter (msg : String)
  | systemError (msg : String)
  | loader (e : LoaderErr)
  | notImplemented (msg : String)
  | runtimePanic (msg : String)
  | extErr (tag : Nat)
deriving DecidableEq

/-- The failure class a caller can recover from a structured error:
used to state whether an error distinguishes unavailable from malformed. -/
inductive ErrClass where
  | unavailableClass
  | malformedClass
  | otherClass
deriving DecidableEq

/-- Classify a structured error. trace.BadParameter is the malformed-input
class; a converted system error and a wrapped unavailable loader error are
the unavailable class. -/
def errClass : Err → ErrClass
  | .badParameter _ => .malformedClass
  | .systemError _ => .unavailableClass
  | .loader (.unavailable _) => .unavailableClass
  | .loader (.malformed _) => .malformedClass
  | .notImplemented _ => .otherClass
  | .runtimePanic _ => .otherClass
  | .extErr _ => .otherClass

/-- Options passed to x509 certificate verification (x509.VerifyOptions):
the DNS name to verify against, the intermediates pool and the roots pool. -/
structure VerifyOptions where
  dnsName : String
  intermediates : CertPool
  roots : Option CertPool
deriving DecidableEq

/-- The dynamic identity-file credential provider state: the five material
fields guarded by mu, plus the path. Go nil pointers and the nil slice are
modelled as none; a field assigned by Reload is some. mu itself is modelled
in the concurrency section by the lock automaton RWStep. -/
structure DynamicIdentityFileCreds where
  tlsCert : Option TLSCert
  tlsRootCAs : Option CertPool
  sshCert : Option SSHCert
  sshKey : Option CryptoSigner
  sshKnownHosts : Option (List SSHPublicKey)
  Path : String
deriving DecidableEq

/-- The sentinel SNI name constants.APIDomain set on all Teleport issued
certificates (teleport.cluster.local), per the comments at lines 382-387
and 535-538 of credentials.go. -/
def apiDomain : String := "teleport.cluster.local"

/-- The ALPN protocol identifier http2.NextProtoTLS. -/
def nextProtoTLS : String := "h2"

/-- The fixed SSH identity principal used by SSHClientConfig (line 587). -/
def sshJoinUser : String := "-teleport-internal-join"

/-- The fixed I/O timeout constant defaults.DefaultIOTimeout (out of src,
value opaque; only its fixedness matters). -/
def defaultIOTimeout : Nat := 5

/-- The static tls.Config record as manipulated by configureTLS: the fields
configureTLS reads or writes, plus the fields relevant to the claims.
The GetClientCertificate callback installed by configureTLS is the constant
function returning the captured certificate (line 395-397), so it is
modelled by the captured value itself (none models a nil callback). -/
structure TLSConfigRec where
  nextProtos : List String
  serverName : String
  certificates : List TLSCert
  getClientCertificate : Option TLSCert
  rootCAs : Option CertPool
  insecureSkipVerify : Bool
deriving DecidableEq

/-- The zero tls.Config, used as lookup default in the heap model. -/
def emptyTLSConfig : TLSConfigRec :=
  { nextProtos := [], serverName := "", certificates := [],
    getClientCertificate := none, rootCAs := none, insecureSkipVerify := false }

/-- utils.Deduplicate (api/utils, outside src): removes duplicates keeping
the first occurrence of each element, preserving order. Accumulator form so
that it is structurally recursive. -/
def dedupAcc (seen : List String) : List String → List String
  | [] => []
  | x :: xs => if x ∈ seen then dedupAcc seen xs else x :: dedupAcc (x :: seen) xs

/-- Deduplicate a protocol list, keeping first occurrences. -/
def deduplicate (l : List String) : List String := dedupAcc [] l

/-- The external collaborators of credentials.go that live outside src:
the identityfile loader, the parsing helpers of packages keys and sshutils,
x509 chain verification, and the host-key-callback constructor. The spec
treats all of these as the opaque external loader, so they are abstract
function parameters here. -/
structure Libs where
  readIdentityFile : FS → String → Except LoaderErr IdentityFile
  fromString : String → Except LoaderErr IdentityFile
  x509KeyPair : Bytes → Bytes → Except Err TLSCert
  appendCertsFromPEM : CertPool → Bytes → CertPool × Bool
  parseCertificate : Bytes → Except Err SSHCert
  parsePrivateKey : Bytes → Except Err CryptoSigner
  parseKnownHosts : List Bytes → Except Err (List SSHPublicKey)
  sshSigner : Option SSHCert → Option CryptoSigner → Except Err SSHSignerTok
  certVerify : Cert → VerifyOptions → Except Err (List (List Cert))
  newHostKeyCallback :
    (DynamicIdentityFileCreds → Except Err (List SSHPublicKey)) →
    Except Err HostKeyCheckerTok
  idTLSConfig : IdentityFile → Except Err TLSConfigRec
  idSSHClientConfig : IdentityFile → Except Err SSHCfgTok

/-- configureTLS (credentials.go lines 378-401), body applied to the clone:
appends the h2 ALPN protocol and deduplicates, substitutes the sentinel
server name only when ServerName is empty, and when static certificates are
present moves the first one into a constant GetClientCertificate callback
and clears the Certificates field. -/
def configureTLSBody (c : TLSConfigRec) : TLSConfigRec :=
  let c1 := { c with nextProtos := deduplicate (c.nextProtos ++ [nextProtoTLS]) }
  let c2 := if c1.serverName = "" then { c1 with serverName := apiDomain } else c1
  match c2.certificates with
  | [] => c2
  | cert :: _ =>
    { c2 with certificates := [], getClientCertificate := some cert }

/-- configureTLS in the heap model: the store is the list of live tls.Config
objects and a reference is an index. tls.Config.Clone allocates a fresh
config (a new index at the end of the store) holding a copy of the argument;
all mutations of configureTLS are performed on that clone only. Returns the
updated store and the reference to the clone. -/
def configureTLS (store : List TLSConfigRec) (r : Nat) :
    List TLSConfigRec × Nat :=
  (store ++ [configureTLSBody (store.getD r emptyTLSConfig)], store.length)

/-- identityCredsFile (credentials.go lines 164-168): a lazily loaded
identity file credential. identityFile none models the nil pointer before
the first successful load. -/
structure identityCredsFile where
  identityFile : Option IdentityFile
  path : String
deriving DecidableEq

/-- identityCredsFile.load (lines 205-214): returns immediately when the
identity file is already cached; otherwise reads and parses the file,
wrapping any loader failure in trace.BadParameter. -/
def identityCredsFile.load (libs : Libs) (fs : FS) (c : identityCredsFile) :
    identityCredsFile × Except Err Unit :=
  match c.identityFile with
  | some _ => (c, .ok ())
  | none =>
    match libs.readIdentityFile fs c.path with
    | .ok idf => ({ c with identityFile := some idf }, .ok ())
    | .error e =>
      (c, .error (.badParameter
        ("identity file could not be decoded: " ++ loaderErrMsg e)))

/-- identityCredsFile.TLSConfig (lines 176-187): load, then build the TLS
config from the cached identity file and pass it through configureTLS.
The nil-identity case after a successful load is unreachable; it is marked
runtimePanic for totality. -/
def identityCredsFile.TLSConfig (libs : Libs) (fs : FS)
    (c : identityCredsFile) : identityCredsFile × Except Err TLSConfigRec :=
  let r := identityCredsFile.load libs fs c
  let c1 := r.1
  match r.2 with
  | .error e => (c1, .error e)
  | .ok _ =>
    match c1.identityFile with
    | none => (c1, .error (.runtimePanic "nil identity file"))
    | some idf =>
      match libs.idTLSConfig idf with
      | .error e => (c1, .error e)
      | .ok tlsConfig => (c1, .ok (configureTLSBody tlsConfig))

/-- identityCredsFile.SSHClientConfig (lines 190-201): load, then build the
SSH client config from the cached identity file. -/
def identityCredsFile.SSHClientConfig (libs : Libs) (fs : FS)
    (c : identityCredsFile) : identityCredsFile × Except Err SSHCfgTok :=
  let r := identityCredsFile.load libs fs c
  let c1 := r.1
  match r.2 with
  | .error e => (c1, .error e)
  | .ok _ =>
    match c1.identityFile with
    | none => (c1, .error (.runtimePanic "nil identity file"))
    | some idf =>
      match libs.idSSHClientConfig idf with
      | .error e => (c1, .error e)
      | .ok sshConfig => (c1, .ok sshConfig)

/-- identityCredsString (lines 235-239): identity credentials parsed from an
in-memory string. -/
structure identityCredsString where
  identityFile : Option IdentityFile
  content : String
deriving DecidableEq

/-- identityCredsString.load (lines 275-284): parse the content string at
most once, wrapping any loader failure in trace.BadParameter. -/
def identityCredsString.load (libs : Libs) (c : identityCredsString) :
    identityCredsString × Except Err Unit :=
  match c.identityFile with
  | some _ => (c, .ok ())
  | none =>
    match libs.fromString c.content with
    | .ok idf => ({ c with identityFile := some idf }, .ok ())
    | .error e =>
      (c, .error (.badParameter
        ("identity file could not be decoded: " ++ loaderErrMsg e)))

/-- One material generation: the five parsed pieces a successful Reload
installs together. -/
structure Material where
  tlsCert : TLSCert
  tlsRootCAs : CertPool
  sshCert : SSHCert
  sshKey : CryptoSigner
  sshKnownHosts : List SSHPublicKey
deriving DecidableEq

/-- The CA pool building loop of Reload (lines 446-451): start from a fresh
pool and append each PEM block, failing with BadParameter when a block does
not parse. -/
def buildPool (libs : Libs) (pool : CertPool) : List Bytes → Except Err CertPool
  | [] => .ok pool
  | pem :: rest =>
    match libs.appendCertsFromPEM pool pem with
    | (pool2, true) => buildPool libs pool2 rest
    | (_, false) => .error (.badParameter "invalid CA cert PEM")

/-- The parsing phase of DynamicIdentityFileCreds.Reload (lines 436-465):
read the identity file, parse the TLS keypair, build the root CA pool, and
parse the SSH certificate, private key and known hosts; the first failure
aborts with that error (the read failure passes through trace.Wrap
unchanged). All of this happens before the lock is taken. -/
def reloadParse (libs : Libs) (fs : FS) (path : String) : Except Err Material :=
  match libs.readIdentityFile fs path with
  | .error e => .error (.loader e)
  | .ok idf =>
    match libs.x509KeyPair idf.certsTLS idf.privateKey with
    | .error e => .error e
    | .ok cert =>
      match buildPool libs [] idf.caCertsTLS with
      | .error e => .error e
      | .ok pool =>
        match libs.parseCertificate idf.certsSSH with
        | .error e => .error e
        | .ok sshCert =>
          match libs.parsePrivateKey idf.privateKey with
          | .error e => .error e
          | .ok sshPrivateKey =>
            match libs.parseKnownHosts idf.caCertsSSH with
            | .error e => .error e
            | .ok knownHosts =>
              .ok { tlsCert := cert, tlsRootCAs := pool, sshCert := sshCert,
                    sshKey := sshPrivateKey, sshKnownHosts := knownHosts }

/-- DynamicIdentityFileCreds.Reload (lines 435-475): on any parse failure
the provider state is returned unchanged with the error; on success all
five material fields are replaced together under the write lock. -/
def DynamicIdentityFileCreds.Reload (libs : Libs) (fs : FS)
    (d : DynamicIdentityFileCreds) : DynamicIdentityFileCreds × Except Err Unit :=
  match reloadParse libs fs d.Path with
  | .error e => (d, .error e)
  | .ok m =>
    ({ d with tlsRootCAs := some m.tlsRootCAs, tlsCert := some m.tlsCert,
              sshCert := some m.sshCert, sshKey := some m.sshKey,
              sshKnownHosts := some m.sshKnownHosts }, .ok ())

/-- NewDynamicIdentityFileCreds (lines 423-431): build a zero provider with
the path set, run the initial Reload, and return the provider only when it
succeeds. -/
def NewDynamicIdentityFileCreds (libs : Libs) (fs : FS) (path : String) :
    Except Err DynamicIdentityFileCreds :=
  match DynamicIdentityFileCreds.Reload libs fs
      { tlsCert := none, tlsRootCAs := none, sshCert := none, sshKey := none,
        sshKnownHosts := none, Path := path } with
  | (_, .error e) => .error e
  | (d1, .ok _) => .ok d1

/-- The TLS connection state seen by the VerifyConnection callback
(tls.ConnectionState): the SNI name of the handshake and the certificate
chain presented by the peer, leaf first. For a client connection the
ServerName field equals the ServerName of the tls.Config used for the
handshake (crypto tls documented behaviour, outside src). -/
structure ConnState where
  serverName : String
  peerCertificates : List Cert
deriving DecidableEq

/-- x509.CertPool.AddCert on the model pool. -/
def addCert (pool : CertPool) (c : Cert) : CertPool := pool ++ [c]

/-- The intermediates pool built by the VerifyConnection loop (lines
526-531): a fresh pool with every presented certificate except the leaf
added in order. -/
def intermediatesOf (certs : List Cert) : CertPool :=
  certs.foldl addCert []

/-- The GetClientCertificate callback installed by the dynamic TLS config
(lines 498-506): reads the current tls certificate under the read lock at
the moment the handshake requests it. The argument is the provider state
current at call time (the closure dereferences the captured pointer). -/
def dynGetClientCertificate (d : DynamicIdentityFileCreds) :
    Except Err (Option TLSCert) :=
  .ok d.tlsCert

/-- The VerifyConnection callback installed by the dynamic TLS config
(lines 514-534): builds the verify options with DNSName equal to the
connection ServerName, a fresh intermediates pool holding every peer
certificate except the leaf, and the current root CA pool read under the
read lock; then verifies the leaf. Go indexes PeerCertificates zero, which
panics on an empty chain; that case is marked runtimePanic. -/
def dynVerifyConnection (libs : Libs) (d : DynamicIdentityFileCreds)
    (cs : ConnState) : Except Err Unit :=
  match cs.peerCertificates with
  | [] => .error (.runtimePanic "index out of range")
  | leaf :: rest =>
    match libs.certVerify leaf
        { dnsName := cs.serverName, intermediates := intermediatesOf rest,
          roots := d.tlsRootCAs } with
    | .error e => .error e
    | .ok _ => .ok ()

/-- The dynamic tls.Config record (lines 490-539). The two callbacks take
the provider state current at call time; the static Certificates and
RootCAs fields are left nil and built-in verification is disabled in favour
of VerifyConnection. -/
structure DynTLSConfig where
  nextProtos : List String
  certificates : Option (List TLSCert)
  getClientCertificate : DynamicIdentityFileCreds → Except Err (Option TLSCert)
  rootCAs : Option CertPool
  insecureSkipVerify : Bool
  verifyConnection : DynamicIdentityFileCreds → ConnState → Except Err Unit
  serverName : String

/-- DynamicIdentityFileCreds.TLSConfig (lines 487-542): always returns the
dynamic config with a nil error. -/
def DynamicIdentityFileCreds.TLSConfig (libs : Libs) :
    Except Err DynTLSConfig :=
  .ok { nextProtos := [nextProtoTLS],
        certificates := none,
        getClientCertificate := dynGetClientCertificate,
        rootCAs := none,
        insecureSkipVerify := true,
        verifyConnection := dynVerifyConnection libs,
        serverName := apiDomain }

/-- The GetHostCheckers closure passed to sshutils.NewHostKeyCallback
(lines 548-552): reads the current known hosts under the read lock at call
time. The nil slice reads as the empty list. -/
def dynGetHostCheckers (d : DynamicIdentityFileCreds) :
    Except Err (List SSHPublicKey) :=
  .ok (d.sshKnownHosts.getD [])

/-- The public key authentication callback (lines 563-571): constructs a
fresh signer from the current ssh certificate and key on every invocation,
surfacing a construction failure as an error for that attempt. -/
def dynPublicKeysCallback (libs : Libs) (d : DynamicIdentityFileCreds) :
    Except Err (List SSHSignerTok) :=
  match libs.sshSigner d.sshCert d.sshKey with
  | .error e => .error e
  | .ok s => .ok [s]

/-- The dynamic ssh.ClientConfig record (lines 561-588): the auth method
callback, the host key callback object, the fixed timeout and the fixed
principal. -/
structure DynSSHClientConfig where
  auth : List (DynamicIdentityFileCreds → Except Err (List SSHSignerTok))
  hostKeyCallback : HostKeyCheckerTok
  timeout : Nat
  user : String

/-- DynamicIdentityFileCreds.SSHClientConfig (lines 546-590): builds the
host key callback from the dynamic GetHostCheckers closure, failing if that
constructor fails, then returns the config. -/
def DynamicIdentityFileCreds.SSHClientConfig (libs : Libs) :
    Except Err DynSSHClientConfig :=
  match libs.newHostKeyCallback dynGetHostCheckers with
  | .error e => .error e
  | .ok hk =>
    .ok { auth := [dynPublicKeysCallback libs],
          hostKeyCallback := hk,
          timeout := defaultIOTimeout,
          user := sshJoinUser }

/-- The provider state matches one full material generation: every field
holds exactly that generation. -/
def matchesGen (d : DynamicIdentityFileCreds) (m : Material) : Prop :=
  d.tlsCert = some m.tlsCert ∧ d.tlsRootCAs = some m.tlsRootCAs ∧
  d.sshCert = some m.sshCert ∧ d.sshKey = some m.sshKey ∧
  d.sshKnownHosts = some m.sshKnownHosts

instance (d : DynamicIdentityFileCreds) (m : Material) :
    Decidable (matchesGen d m) := by
  unfold matchesGen
  infer_instance

/-- The lock-automaton state for the concurrency model of Reload against
concurrent readers: whether the write lock mu is held, which generation the
in-progress Reload is installing, how many of the five field writes of the
locked section (lines 467-473) have executed, the provider fields, and the
index of the last fully installed generation. -/
structure RWSys where
  locked : Bool
  pending : Nat
  progress : Nat
  creds : DynamicIdentityFileCreds
  installed : Nat

/-- Small-step semantics of the locked section of Reload interleaved with
readers. gens enumerates the material generations produced by successive
successful parses (parsing happens before the lock is taken). acquire
models mu.Lock: it needs the lock to be free, so concurrent Reload calls
are serialized and generations cannot interleave. The five write steps are
the five field assignments in source order; release models mu.Unlock,
which in the source runs only after all five assignments. A reader step is
not modelled explicitly: readers run under mu.RLock, which can be held
exactly in states where locked is false, so a read observation is the
creds component of any reachable unlocked state. -/
inductive RWStep (gens : Nat → Material) : RWSys → RWSys → Prop
  | acquire (s : RWSys) (g : Nat) : s.locked = false →
    RWStep gens s { s with locked := true, pending := g, progress := 0 }
  | writeRootCAs (s : RWSys) : s.locked = true → s.progress = 0 →
    RWStep gens s { s with
      creds := { s.creds with tlsRootCAs := some (gens s.pending).tlsRootCAs },
      progress := 1 }
  | writeTLSCert (s : RWSys) : s.locked = true → s.progress = 1 →
    RWStep gens s { s with
      creds := { s.creds with tlsCert := some (gens s.pending).tlsCert },
      progress := 2 }
  | writeSSHCert (s : RWSys) : s.locked = true → s.progress = 2 →
    RWStep gens s { s with
      creds := { s.creds with sshCert := some (gens s.pending).sshCert },
      progress := 3 }
  | writeSSHKey (s : RWSys) : s.locked = true → s.progress = 3 →
    RWStep gens s { s with
      creds := { s.creds with sshKey := some (gens s.pending).sshKey },
      progress := 4 }
  | writeKnownHosts (s : RWSys) : s.locked = true → s.progress = 4 →
    RWStep gens s { s with
      creds := { s.creds with sshKnownHosts := some (gens s.pending).sshKnownHosts },
      progress := 5 }
  | release (s : RWSys) : s.locked = true → s.progress = 5 →
    RWStep gens s { s with locked := false, installed := s.pending }

/-- The inductive invariant of the lock automaton: when the lock is free the
fields hold exactly the installed generation; while the lock is held each
field holds the pending generation once its write has executed and the
installed generation before that. -/
def RWInv (gens : Nat → Material) (s : RWSys) : Prop :=
  (s.locked = false → matchesGen s.creds (gens s.installed)) ∧
  (s.locked = true →
    s.creds.tlsRootCAs =
      some (gens (if 1 ≤ s.progress then s.pending else s.installed)).tlsRootCAs ∧
    s.creds.tlsCert =
      some (gens (if 2 ≤ s.progress then s.pending else s.installed)).tlsCert ∧
    s.creds.sshCert =
      some (gens (if 3 ≤ s.progress then s.pending else s.installed)).sshCert ∧
    s.creds.sshKey =
      some (gens (if 4 ≤ s.progress then s.pending else s.installed)).sshKey ∧
    s.creds.sshKnownHosts =
      some (gens (if 5 ≤ s.progress then s.pending else s.installed)).sshKnownHosts)

/-- Each step of the lock automaton preserves the invariant. -/
theorem rwInv_preserved (gens : Nat → Material) (s s2 : RWSys)
    (hinv : RWInv gens s) (hstep : RWStep gens s s2) : RWInv gens s2 := by
  obtain ⟨hfree, hheld⟩ := hinv
  cases hstep with
  | acquire g hl =>
    refine ⟨by simp, fun _ => ?_⟩
    obtain ⟨h1, h2, h3, h4, h5⟩ := hfree hl
    simp [h1, h2, h3, h4, h5]
  | writeRootCAs hl hp =>
    obtain ⟨h1, h2, h3, h4, h5⟩ := hheld hl
    refine ⟨fun hc => absurd hc (by simp [hl]), fun _ => ?_⟩
    simp [hp] at h2 h3 h4 h5
    simp [h2, h3, h4, h5]
  | writeTLSCert hl hp =>
    obtain ⟨h1, h2, h3, h4, h5⟩ := hheld hl
    refine ⟨fun hc => absurd hc (by simp [hl]), fun _ => ?_⟩
    simp [hp] at h1 h3 h4 h5
    simp [h1, h3, h4, h5]
  | writeSSHCert hl hp =>
    obtain ⟨h1, h2, h3, h4, h5⟩ := hheld hl
    refine ⟨fun hc => absurd hc (by simp [hl]), fun _ => ?_⟩
    simp [hp] at h1 h2 h4 h5
    simp [h1, h2, h4, h5]
  | writeSSHKey hl hp =>
    obtain ⟨h1, h2, h3, h4, h5⟩ := hheld hl
    refine ⟨fun hc => absurd hc (by simp [hl]), fun _ => ?_⟩
    simp [hp] at h1 h2 h3 h5
    simp [h1, h2, h3, h5]
  | writeKnownHosts hl hp =>
    obtain ⟨h1, h2, h3, h4, h5⟩ := hheld hl
    refine ⟨fun hc => absurd hc (by simp [hl]), fun _ => ?_⟩
    simp [hp] at h1 h2 h3 h4
    simp [h1, h2, h3, h4]
  | release hl hp =>
    obtain ⟨h1, h2, h3, h4, h5⟩ := hheld hl
    simp [hp] at h1 h2 h3 h4 h5
    refine ⟨fun _ => ?_, by simp⟩
    unfold matchesGen
    exact ⟨h2, h1, h3, h4, h5⟩

/-- The initial automaton state after construction: lock free, generation
zero installed. -/
def rwInit (c0 : DynamicIdentityFileCreds) : RWSys :=
  { locked := false, pending := 0, progress := 0, creds := c0, installed := 0 }

/-- Folding AddCert over a list appends the list to the pool. -/
theorem foldl_addCert (l : List Cert) (acc : CertPool) :
    l.foldl addCert acc = acc ++ l := by
  induction l generalizing acc with
  | nil => simp
  | cons c rest ih => simp [addCert, ih]

/-- The intermediates pool holds exactly the non-leaf presented
certificates, in order. -/
theorem intermediatesOf_eq (certs : List Cert) : intermediatesOf certs = certs := by
  simp [intermediatesOf, foldl_addCert]

/-- configureTLSBody never changes a nonempty server name and substitutes
the sentinel exactly when the server name is empty. -/
theorem configureTLSBody_serverName (c : TLSConfigRec) :
    (configureTLSBody c).serverName =
      (if c.serverName = "" then apiDomain else c.serverName) := by
  unfold configureTLSBody
  by_cases hsn : c.serverName = "" <;>
    simp [hsn] <;> cases c.certificates <;> simp

/-- Lookup into an extended store is unchanged below the old length. -/
theorem getD_append_lt (l : List TLSConfigRec) (x : TLSConfigRec) (i : Nat)
    (h : i < l.length) :
    (l ++ [x]).getD i emptyTLSConfig = l.getD i emptyTLSConfig := by
  induction l generalizing i with
  | nil => simp at h
  | cons a rest ih =>
    cases i with
    | zero => simp
    | succ j =>
      simp only [List.cons_append, List.getD_cons_succ]
      exact ih j (by simpa using h)

/-- Lookup into an extended store at the old length returns the new entry. -/
theorem getD_append_self (l : List TLSConfigRec) (x : TLSConfigRec) :
    (l ++ [x]).getD l.length emptyTLSConfig = x := by
  induction l with
  | nil => simp [List.getD]
  | cons a rest ih => simp [ih]

/-- A successful lazy load leaves a cached identity file, and a provider
with a cached identity file loads without touching the filesystem. -/
theorem identityCredsFile_load_cached (libs : Libs) (fs : FS)
    (c c1 : identityCredsFile) (u : Unit)
    (h : identityCredsFile.load libs fs c = (c1, .ok u)) :
    (∃ idf, c1.identityFile = some idf) ∧
    ∀ fs2, identityCredsFile.load libs fs2 c1 = (c1, .ok ()) := by
  unfold identityCredsFile.load at h
  cases hc : c.identityFile with
  | some idf =>
    rw [hc] at h
    have h1 : c = c1 := congrArg Prod.fst h
    subst h1
    exact ⟨⟨idf, hc⟩, fun fs2 => by unfold identityCredsFile.load; rw [hc]⟩
  | none =>
    rw [hc] at h
    cases hr : libs.readIdentityFile fs c.path with
    | ok idf =>
      rw [hr] at h
      have h1 : { c with identityFile := some idf } = c1 := congrArg Prod.fst h
      subst h1
      exact ⟨⟨idf, rfl⟩, fun fs2 => by unfold identityCredsFile.load; simp⟩
    | error e =>
      rw [hr] at h
      simp at h

/-- Fixed identity file used by the concrete witness instances. -/
def idfW : IdentityFile :=
  { privateKey := "pk", certsSSH := "sc", certsTLS := "tc",
    caCertsSSH := ["kh"], caCertsTLS := ["ca"] }

/-- A concrete instantiation of the external collaborators on which every
parse succeeds, used to evaluate the theorems on closed inputs. -/
def libsOk : Libs :=
  { readIdentityFile := fun fs path =>
      match fs path with
      | some _ => .ok idfW
      | none => .error (.unavailable "io"),
    fromString := fun s =>
      if s = "good" then .ok idfW else .error (.malformed "bad string"),
    x509KeyPair := fun _ _ => .ok 11,
    appendCertsFromPEM := fun pool pem =>
      if pem = "bad" then (pool, false) else (pool ++ [21], true),
    parseCertificate := fun _ => .ok 31,
    parsePrivateKey := fun _ => .ok 41,
    parseKnownHosts := fun _ => .ok [51],
    sshSigner := fun c k =>
      match c, k with
      | some c, some k => .ok (c + k)
      | _, _ => .error (.badParameter "no signer"),
    certVerify := fun leaf opts =>
      match opts.roots with
      | some roots => if leaf ∈ roots then .ok [[leaf]] else .error (.extErr 1)
      | none => .error (.extErr 2),
    newHostKeyCallback := fun _ => .ok 61,
    idTLSConfig := fun _ => .ok emptyTLSConfig,
    idSSHClientConfig := fun _ => .ok 71 }

/-- Collaborators whose identity file read always fails as unavailable. -/
def libsUnavail : Libs :=
  { libsOk with readIdentityFile := fun _ _ => .error (.unavailable "io") }

/-- Collaborators whose identity file read always fails as malformed. -/
def libsParseFail : Libs :=
  { libsOk with readIdentityFile := fun _ _ => .error (.malformed "pem") }

/-- A filesystem on which every path is present. -/
def fsGood : FS := fun _ => some "id"

/-- A filesystem on which every path is missing. -/
def fsMissing : FS := fun _ => none

/-- The empty provider with path p, as built by NewDynamicIdentityFileCreds
before the initial Reload. -/
def d0W : DynamicIdentityFileCreds :=
  { tlsCert := none, tlsRootCAs := none, sshCert := none, sshKey := none,
    sshKnownHosts := none, Path := "p" }

/-- The material generation parsed by libsOk. -/
def mW : Material :=
  { tlsCert := 11, tlsRootCAs := [21], sshCert := 31, sshKey := 41,
    sshKnownHosts := [51] }

/-- The provider state after a successful Reload through libsOk. -/
def d1W : DynamicIdentityFileCreds :=
  { tlsCert := some 11, tlsRootCAs := some [21], sshCert := some 31,
    sshKey := some 41, sshKnownHosts := some [51], Path := "p" }

/-- The locked field-swap section of Reload (lines 467-473), as a function:
replace all five material fields with the given generation. -/
def applyGen (d : DynamicIdentityFileCreds) (m : Material) :
    DynamicIdentityFileCreds :=
  { d with
      tlsRootCAs := some m.tlsRootCAs
      tlsCert := some m.tlsCert
      sshCert := some m.sshCert
      sshKey := some m.sshKey
      sshKnownHosts := some m.sshKnownHosts }

/-- C1: if Reload fails to read or parse the loaded material, it returns the
error and every one of the five material fields is exactly as before the
call, so nothing changes in what the TLSConfig and SSHClientConfig
callbacks subsequently observe (the callbacks are functions of the provider
state, which is unchanged). -/
theorem reload_failure_preserves_state (libs : Libs) (fs : FS)
    (d : DynamicIdentityFileCreds) (e : Err)
    (h : (DynamicIdentityFileCreds.Reload libs fs d).2 = .error e) :
    (DynamicIdentityFileCreds.Reload libs fs d).1 = d ∧
    dynGetClientCertificate (DynamicIdentityFileCreds.Reload libs fs d).1 =
      .ok d.tlsCert ∧
    dynGetHostCheckers (DynamicIdentityFileCreds.Reload libs fs d).1 =
      .ok (d.sshKnownHosts.getD []) ∧
    dynPublicKeysCallback libs (DynamicIdentityFileCreds.Reload libs fs d).1 =
      dynPublicKeysCallback libs d := by
  have hstate : (DynamicIdentityFileCreds.Reload libs fs d).1 = d := by
    unfold DynamicIdentityFileCreds.Reload at h ⊢
    cases hp : reloadParse libs fs d.Path with
    | error e2 => simp
    | ok m => rw [hp] at h; simp at h
  exact ⟨hstate, by rw [hstate]; rfl, by rw [hstate]; rfl, by rw [hstate]⟩

/-- Witness for C1 at a concrete failing load: the filesystem is missing the
identity file, Reload reports the wrapped unavailable error and the loaded
provider keeps its previous material. -/
theorem reload_failure_preserves_state_witness :
    (DynamicIdentityFileCreds.Reload libsOk fsMissing d1W).2 =
      .error (.loader (.unavailable "io")) ∧
    ((DynamicIdentityFileCreds.Reload libsOk fsMissing d1W).1 = d1W ∧
     dynGetClientCertificate (DynamicIdentityFileCreds.Reload libsOk fsMissing d1W).1 =
       .ok d1W.tlsCert ∧
     dynGetHostCheckers (DynamicIdentityFileCreds.Reload libsOk fsMissing d1W).1 =
       .ok (d1W.sshKnownHosts.getD []) ∧
     dynPublicKeysCallback libsOk (DynamicIdentityFileCreds.Reload libsOk fsMissing d1W).1 =
       dynPublicKeysCallback libsOk d1W) :=
  ⟨rfl, reload_failure_preserves_state libsOk fsMissing d1W
    (.loader (.unavailable "io")) rfl⟩

/-- C5: NewDynamicIdentityFileCreds performs the initial Reload; when the
load fails the error is returned and no provider is produced, and when it
succeeds the provider holds the full parsed material generation, so a
provider with empty material is never returned. -/
theorem new_dynamic_creds_initial_load (libs : Libs) (fs : FS) (path : String) :
    (∀ e, reloadParse libs fs path = .error e →
      NewDynamicIdentityFileCreds libs fs path = .error e) ∧
    (∀ d, NewDynamicIdentityFileCreds libs fs path = .ok d →
      ∃ m, reloadParse libs fs path = .ok m ∧ d.Path = path ∧ matchesGen d m) := by
  constructor
  · intro e he
    unfold NewDynamicIdentityFileCreds DynamicIdentityFileCreds.Reload
    simp only [he]
  · intro d hd
    unfold NewDynamicIdentityFileCreds DynamicIdentityFileCreds.Reload at hd
    cases hp : reloadParse libs fs path with
    | error e2 =>
      simp only [hp] at hd
      exact Except.noConfusion hd
    | ok m =>
      simp only [hp] at hd
      have hdm := Except.ok.inj hd
      subst hdm
      exact ⟨m, rfl, rfl, by unfold matchesGen; exact ⟨rfl, rfl, rfl, rfl, rfl⟩⟩

/-- Witness for C5 on concrete inputs: a failing initial load yields the
error and no provider, and a successful one yields the fully populated
provider. -/
theorem new_dynamic_creds_initial_load_witness :
    NewDynamicIdentityFileCreds libsUnavail fsGood "p" =
      .error (.loader (.unavailable "io")) ∧
    (∃ m, reloadParse libsOk fsGood "p" = .ok m ∧ d1W.Path = "p" ∧
      matchesGen d1W m) :=
  ⟨(new_dynamic_creds_initial_load libsUnavail fsGood "p").1
      (.loader (.unavailable "io")) rfl,
   (new_dynamic_creds_initial_load libsOk fsGood "p").2 d1W rfl⟩

/-- C8: DynamicIdentityFileCreds.TLSConfig never fails synchronously: it
always returns a config (never nil) together with a nil error, for any
instantiation of the collaborators and hence any provider state; unusable
material can only surface later through the handshake callbacks. -/
theorem dyn_tls_config_never_fails (libs : Libs) :
    ∃ cfg, DynamicIdentityFileCreds.TLSConfig libs = .ok cfg :=
  ⟨_, rfl⟩

/-- C2: the callbacks installed by the dynamic TLS and SSH configs read the
provider state at the moment they are invoked, not a copy captured when the
config was built: after a successful Reload installing material m, every
callback of any previously obtained config returns the pieces of m. -/
theorem dyn_callbacks_reflect_latest_material (libs : Libs) (fs : FS)
    (d d2 : DynamicIdentityFileCreds) (m : Material)
    (hp : reloadParse libs fs d.Path = .ok m)
    (hr : DynamicIdentityFileCreds.Reload libs fs d = (d2, .ok ())) :
    dynGetClientCertificate d2 = .ok (some m.tlsCert) ∧
    dynGetHostCheckers d2 = .ok m.sshKnownHosts ∧
    dynPublicKeysCallback libs d2 =
      (libs.sshSigner (some m.sshCert) (some m.sshKey)).map (fun s => [s]) ∧
    ∀ sn leaf rest,
      dynVerifyConnection libs d2
          { serverName := sn, peerCertificates := leaf :: rest } =
        (libs.certVerify leaf
          { dnsName := sn, intermediates := rest,
            roots := some m.tlsRootCAs }).map (fun _ => ()) := by
  unfold DynamicIdentityFileCreds.Reload at hr
  rw [hp] at hr
  have h2 : applyGen d m = d2 := congrArg Prod.fst hr
  subst h2
  refine ⟨rfl, rfl, ?_, ?_⟩
  · unfold dynPublicKeysCallback
    simp only [applyGen]
    cases libs.sshSigner (some m.sshCert) (some m.sshKey) <;> simp [Except.map]
  · intro sn leaf rest
    unfold dynVerifyConnection
    simp only [intermediatesOf_eq, applyGen]
    cases libs.certVerify leaf
        { dnsName := sn, intermediates := rest, roots := some m.tlsRootCAs } <;>
      simp [Except.map]

/-- Witness for C2 at a concrete reload: the callbacks of a config built
before the reload return the freshly installed material. -/
theorem dyn_callbacks_reflect_latest_material_witness :
    reloadParse libsOk fsGood d0W.Path = .ok mW ∧
    DynamicIdentityFileCreds.Reload libsOk fsGood d0W = (d1W, .ok ()) ∧
    (dynGetClientCertificate d1W = .ok (some mW.tlsCert) ∧
     dynGetHostCheckers d1W = .ok mW.sshKnownHosts ∧
     dynPublicKeysCallback libsOk d1W =
       (libsOk.sshSigner (some mW.sshCert) (some mW.sshKey)).map (fun s => [s]) ∧
     ∀ sn leaf rest,
       dynVerifyConnection libsOk d1W
           { serverName := sn, peerCertificates := leaf :: rest } =
         (libsOk.certVerify leaf
           { dnsName := sn, intermediates := rest,
             roots := some mW.tlsRootCAs }).map (fun _ => ())) :=
  ⟨rfl, rfl,
   dyn_callbacks_reflect_latest_material libsOk fsGood d0W d1W mW rfl rfl⟩

/-- C6: the SSH public key authentication callback builds a fresh signer
from the current sshCert and sshKey on every invocation: a successful
construction yields exactly that signer, a failed construction surfaces the
error of that attempt (the callback is total, so it never panics), and
after a reload the callback uses the newly installed material rather than
anything cached. -/
theorem ssh_callback_fresh_signer (libs : Libs) :
    (∀ d s, libs.sshSigner d.sshCert d.sshKey = .ok s →
      dynPublicKeysCallback libs d = .ok [s]) ∧
    (∀ d e, libs.sshSigner d.sshCert d.sshKey = .error e →
      dynPublicKeysCallback libs d = .error e) ∧
    (∀ fs d d2 m, reloadParse libs fs d.Path = .ok m →
      DynamicIdentityFileCreds.Reload libs fs d = (d2, .ok ()) →
      dynPublicKeysCallback libs d2 =
        (libs.sshSigner (some m.sshCert) (some m.sshKey)).map (fun s => [s])) := by
  refine ⟨?_, ?_, ?_⟩
  · intro d s hs
    unfold dynPublicKeysCallback
    rw [hs]
  · intro d e hs
    unfold dynPublicKeysCallback
    rw [hs]
  · intro fs d d2 m hp hr
    unfold DynamicIdentityFileCreds.Reload at hr
    rw [hp] at hr
    have h2 : applyGen d m = d2 := congrArg Prod.fst hr
    subst h2
    unfold dynPublicKeysCallback
    simp only [applyGen]
    cases libs.sshSigner (some m.sshCert) (some m.sshKey) <;> simp [Except.map]

/-- Witness for C6 on concrete material: valid material yields the signer
built from the current certificate and key, missing material yields an
error, not a crash. -/
theorem ssh_callback_fresh_signer_witness :
    dynPublicKeysCallback libsOk d1W = .ok [72] ∧
    dynPublicKeysCallback libsOk d0W = .error (.badParameter "no signer") :=
  ⟨(ssh_callback_fresh_signer libsOk).1 d1W 72 rfl,
   (ssh_callback_fresh_signer libsOk).2.1 d0W (.badParameter "no signer") rfl⟩

/-- C3: the dynamic TLS config disables built-in verification
(InsecureSkipVerify true, RootCAs nil), fixes ServerName to the sentinel
apiDomain, and its VerifyConnection callback builds the intermediates pool
from all presented peer certificates except the leaf and verifies the leaf
against the current provider root pool with DNSName equal to the connection
ServerName; for a handshake under this config the connection ServerName is
the config ServerName, hence the sentinel. The result is exactly the result
of chain verification, determined only by the presented chain, the current
roots and the sentinel, independent of the network-level endpoint. -/
theorem verify_connection_sentinel (libs : Libs) (cfg : DynTLSConfig)
    (hcfg : DynamicIdentityFileCreds.TLSConfig libs = .ok cfg) :
    cfg.insecureSkipVerify = true ∧
    cfg.serverName = apiDomain ∧
    cfg.rootCAs = none ∧
    ∀ d sn leaf rest, sn = cfg.serverName →
      cfg.verifyConnection d
          { serverName := sn, peerCertificates := leaf :: rest } =
        (libs.certVerify leaf
          { dnsName := apiDomain, intermediates := rest,
            roots := d.tlsRootCAs }).map (fun _ => ()) := by
  unfold DynamicIdentityFileCreds.TLSConfig at hcfg
  have hc := Except.ok.inj hcfg
  subst hc
  refine ⟨rfl, rfl, rfl, ?_⟩
  intro d sn leaf rest hsn
  subst hsn
  show dynVerifyConnection libs d
      { serverName := apiDomain, peerCertificates := leaf :: rest } =
    (libs.certVerify leaf
      { dnsName := apiDomain, intermediates := rest,
        roots := d.tlsRootCAs }).map (fun _ => ())
  unfold dynVerifyConnection
  simp only [intermediatesOf_eq]
  cases libs.certVerify leaf
      { dnsName := apiDomain, intermediates := rest, roots := d.tlsRootCAs } <;>
    simp [Except.map]

/-- The concrete dynamic TLS config built through libsOk, for the witness. -/
def dynCfgW : DynTLSConfig :=
  { nextProtos := [nextProtoTLS],
    certificates := none,
    getClientCertificate := dynGetClientCertificate,
    rootCAs := none,
    insecureSkipVerify := true,
    verifyConnection := dynVerifyConnection libsOk,
    serverName := apiDomain }

/-- Witness for C3 at the concrete collaborators libsOk. -/
theorem verify_connection_sentinel_witness :
    DynamicIdentityFileCreds.TLSConfig libsOk = .ok dynCfgW ∧
    (dynCfgW.insecureSkipVerify = true ∧
     dynCfgW.serverName = apiDomain ∧
     dynCfgW.rootCAs = none ∧
     ∀ d sn leaf rest, sn = dynCfgW.serverName →
       dynCfgW.verifyConnection d
           { serverName := sn, peerCertificates := leaf :: rest } =
         (libsOk.certVerify leaf
           { dnsName := apiDomain, intermediates := rest,
             roots := d.tlsRootCAs }).map (fun _ => ())) :=
  ⟨rfl, verify_connection_sentinel libsOk dynCfgW rfl⟩

/-- C4: in the lock automaton of Reload, any read (possible exactly when the
write lock is free, since readers hold the read lock) observes the five
fields of one single fully installed generation, never a mix of two; and
from a locked state no step can start a new install or change which
generation is being installed, so serialized Reload calls cannot interleave
generations: a locked section either stays locked on its own pending
generation or completes by installing exactly that generation. -/
theorem reload_atomic_generations (gens : Nat → Material)
    (c0 : DynamicIdentityFileCreds) (s : RWSys)
    (h0 : matchesGen c0 (gens 0))
    (hreach : Relation.ReflTransGen (RWStep gens) (rwInit c0) s) :
    (s.locked = false → matchesGen s.creds (gens s.installed)) ∧
    (∀ t u : RWSys, t.locked = true → RWStep gens t u →
      u.pending = t.pending ∧ (u.locked = true ∨ u.installed = t.pending)) := by
  constructor
  · have hinv : RWInv gens s := by
      induction hreach with
      | refl =>
        exact ⟨fun _ => h0, fun hc => absurd hc (by simp [rwInit])⟩
      | tail hab hstep ih => exact rwInv_preserved gens _ _ ih hstep
    exact hinv.1
  · intro t u hl hstep
    cases hstep with
    | acquire g hlf => rw [hl] at hlf; exact Bool.noConfusion hlf
    | writeRootCAs h1 h2 => exact ⟨rfl, Or.inl hl⟩
    | writeTLSCert h1 h2 => exact ⟨rfl, Or.inl hl⟩
    | writeSSHCert h1 h2 => exact ⟨rfl, Or.inl hl⟩
    | writeSSHKey h1 h2 => exact ⟨rfl, Or.inl hl⟩
    | writeKnownHosts h1 h2 => exact ⟨rfl, Or.inl hl⟩
    | release h1 h2 => exact ⟨rfl, Or.inr rfl⟩

/-- A second material generation, for the concurrency witness. -/
def m2W : Material :=
  { tlsCert := 12, tlsRootCAs := [22], sshCert := 32, sshKey := 42,
    sshKnownHosts := [52] }

/-- Generation sequence for the concurrency witness: generation zero is mW,
every later generation is m2W. -/
def gensW : Nat → Material := fun n => if n = 0 then mW else m2W

/-- The provider state holding generation m2W. -/
def d2W : DynamicIdentityFileCreds :=
  { tlsCert := some 12, tlsRootCAs := some [22], sshCert := some 32,
    sshKey := some 42, sshKnownHosts := some [52], Path := "p" }

/-- The automaton state after one full reload cycle installing
generation 1. -/
def sFinalW : RWSys :=
  { locked := false, pending := 1, progress := 5, creds := d2W, installed := 1 }

/-- A concrete run of the lock automaton: acquire, the five field writes,
release. -/
theorem rwReachW :
    Relation.ReflTransGen (RWStep gensW) (rwInit d1W) sFinalW := by
  refine Relation.ReflTransGen.head (RWStep.acquire _ 1 rfl) ?_
  refine Relation.ReflTransGen.head (RWStep.writeRootCAs _ rfl rfl) ?_
  refine Relation.ReflTransGen.head (RWStep.writeTLSCert _ rfl rfl) ?_
  refine Relation.ReflTransGen.head (RWStep.writeSSHCert _ rfl rfl) ?_
  refine Relation.ReflTransGen.head (RWStep.writeSSHKey _ rfl rfl) ?_
  refine Relation.ReflTransGen.head (RWStep.writeKnownHosts _ rfl rfl) ?_
  refine Relation.ReflTransGen.head (RWStep.release _ rfl rfl) ?_
  exact Relation.ReflTransGen.refl

/-- Witness for C4: after the concrete reload cycle the unlocked state holds
exactly generation 1, in full. -/
theorem reload_atomic_generations_witness :
    matchesGen d1W (gensW 0) ∧
    ((sFinalW.locked = false → matchesGen sFinalW.creds (gensW sFinalW.installed)) ∧
     (∀ t u : RWSys, t.locked = true → RWStep gensW t u →
       u.pending = t.pending ∧ (u.locked = true ∨ u.installed = t.pending))) :=
  ⟨by decide, reload_atomic_generations gensW d1W sFinalW (by decide) rwReachW⟩

/-- C9: configureTLS clones its argument and mutates only the clone: every
config already in the store, including the argument, is unchanged after the
call; the returned reference is a fresh one holding the transformed copy; a
caller-set nonempty ServerName is preserved in the clone and the sentinel is
substituted exactly when ServerName is empty. -/
theorem configure_tls_no_mutation (store : List TLSConfigRec) (r : Nat)
    (h : r < store.length) :
    (∀ i, i < store.length →
      (configureTLS store r).1.getD i emptyTLSConfig =
        store.getD i emptyTLSConfig) ∧
    (configureTLS store r).2 ≠ r ∧
    (configureTLS store r).1.getD (configureTLS store r).2 emptyTLSConfig =
      configureTLSBody (store.getD r emptyTLSConfig) ∧
    ((store.getD r emptyTLSConfig).serverName ≠ "" →
      ((configureTLS store r).1.getD (configureTLS store r).2
          emptyTLSConfig).serverName =
        (store.getD r emptyTLSConfig).serverName) ∧
    ((store.getD r emptyTLSConfig).serverName = "" →
      ((configureTLS store r).1.getD (configureTLS store r).2
          emptyTLSConfig).serverName = apiDomain) := by
  have hclone : (configureTLS store r).1.getD (configureTLS store r).2
      emptyTLSConfig = configureTLSBody (store.getD r emptyTLSConfig) :=
    getD_append_self store _
  refine ⟨?_, ?_, hclone, ?_, ?_⟩
  · intro i hi
    exact getD_append_lt store _ i hi
  · show store.length ≠ r
    omega
  · intro hne
    rw [hclone, configureTLSBody_serverName, if_neg hne]
  · intro heq
    rw [hclone, configureTLSBody_serverName, if_pos heq]

/-- A caller-built config with a nonempty server name, for the witness. -/
def cfgNamedW : TLSConfigRec :=
  { nextProtos := ["x"], serverName := "example.com", certificates := [3],
    getClientCertificate := none, rootCAs := none, insecureSkipVerify := false }

/-- The heap of live configs for the C9 witness. -/
def storeW : List TLSConfigRec := [cfgNamedW]

/-- Witness for C9 on a concrete store: the caller entry is untouched, the
clone lives at a fresh reference and keeps the caller server name. -/
theorem configure_tls_no_mutation_witness :
    0 < storeW.length ∧
    ((∀ i, i < storeW.length →
      (configureTLS storeW 0).1.getD i emptyTLSConfig =
        storeW.getD i emptyTLSConfig) ∧
     (configureTLS storeW 0).2 ≠ 0 ∧
     (configureTLS storeW 0).1.getD (configureTLS storeW 0).2 emptyTLSConfig =
       configureTLSBody (storeW.getD 0 emptyTLSConfig) ∧
     ((storeW.getD 0 emptyTLSConfig).serverName ≠ "" →
       ((configureTLS storeW 0).1.getD (configureTLS storeW 0).2
           emptyTLSConfig).serverName =
         (storeW.getD 0 emptyTLSConfig).serverName) ∧
     ((storeW.getD 0 emptyTLSConfig).serverName = "" →
       ((configureTLS storeW 0).1.getD (configureTLS storeW 0).2
           emptyTLSConfig).serverName = apiDomain)) :=
  ⟨by decide, configure_tls_no_mutation storeW 0 (by decide)⟩

/-- A not-yet-loaded file credential at path p, for the witnesses. -/
def cfW : identityCredsFile := { identityFile := none, path := "p" }

/-- The file credential after caching the parsed identity file. -/
def cf1W : identityCredsFile := { identityFile := some idfW, path := "p" }

/-- Elimination for a successful identityCredsFile.TLSConfig call: the load
succeeded leaving a cached identity file, and the config is built from that
cached file. -/
theorem identityCredsFile_TLSConfig_ok_elim (libs : Libs) (fs : FS)
    (c c1 : identityCredsFile) (cfg : TLSConfigRec)
    (h : identityCredsFile.TLSConfig libs fs c = (c1, .ok cfg)) :
    identityCredsFile.load libs fs c = (c1, .ok ()) ∧
    ∃ idf cfg0, c1.identityFile = some idf ∧ libs.idTLSConfig idf = .ok cfg0 ∧
      cfg = configureTLSBody cfg0 := by
  unfold identityCredsFile.TLSConfig at h
  cases hl : identityCredsFile.load libs fs c with
  | mk c2 res =>
    simp only [hl] at h
    cases res with
    | error e => simp at h
    | ok u =>
      cases u
      cases hi : c2.identityFile with
      | none => simp [hi] at h
      | some idf =>
        simp only [hi] at h
        cases ht : libs.idTLSConfig idf with
        | error e => simp [ht] at h
        | ok cfg0 =>
          simp only [ht] at h
          have h1 : c2 = c1 := congrArg Prod.fst h
          have h2 : configureTLSBody cfg0 = cfg :=
            Except.ok.inj (congrArg Prod.snd h)
          subst h1
          exact ⟨rfl, idf, cfg0, hi, ht, h2.symm⟩

/-- Elimination for a successful identityCredsFile.SSHClientConfig call. -/
theorem identityCredsFile_SSHClientConfig_ok_elim (libs : Libs) (fs : FS)
    (c c1 : identityCredsFile) (s : SSHCfgTok)
    (h : identityCredsFile.SSHClientConfig libs fs c = (c1, .ok s)) :
    identityCredsFile.load libs fs c = (c1, .ok ()) ∧
    ∃ idf, c1.identityFile = some idf ∧ libs.idSSHClientConfig idf = .ok s := by
  unfold identityCredsFile.SSHClientConfig at h
  cases hl : identityCredsFile.load libs fs c with
  | mk c2 res =>
    simp only [hl] at h
    cases res with
    | error e => simp at h
    | ok u =>
      cases u
      cases hi : c2.identityFile with
      | none => simp [hi] at h
      | some idf =>
        simp only [hi] at h
        cases ht : libs.idSSHClientConfig idf with
        | error e => simp [ht] at h
        | ok s0 =>
          simp only [ht] at h
          have h1 : c2 = c1 := congrArg Prod.fst h
          have h2 : s0 = s := Except.ok.inj (congrArg Prod.snd h)
          subst h1
          subst h2
          exact ⟨rfl, idf, hi, ht⟩

/-- C10: the static identity credentials parse their backing material at
most once: a credential whose identity file is cached loads without reading
the filesystem at all; after any successful TLSConfig or SSHClientConfig
call, the same call on the resulting state under an arbitrarily changed
filesystem returns the identical state and config, so a change to the
backing file is never reflected; the string credential likewise parses at
most once. By contrast DynamicIdentityFileCreds.Reload goes back to the
filesystem on every call: it fails whenever the current read fails, however
well loaded the provider already is. -/
theorem static_creds_parse_once (libs : Libs) :
    (∀ fs c idf, c.identityFile = some idf →
      identityCredsFile.load libs fs c = (c, .ok ())) ∧
    (∀ fs1 fs2 c c1 cfg,
      identityCredsFile.TLSConfig libs fs1 c = (c1, .ok cfg) →
      identityCredsFile.TLSConfig libs fs2 c1 = (c1, .ok cfg)) ∧
    (∀ fs1 fs2 c c1 s,
      identityCredsFile.SSHClientConfig libs fs1 c = (c1, .ok s) →
      identityCredsFile.SSHClientConfig libs fs2 c1 = (c1, .ok s)) ∧
    (∀ c c1, identityCredsString.load libs c = (c1, .ok ()) →
      identityCredsString.load libs c1 = (c1, .ok ())) ∧
    (∀ fs d e, libs.readIdentityFile fs d.Path = .error e →
      (DynamicIdentityFileCreds.Reload libs fs d).2 = .error (.loader e)) := by
  have hcache : ∀ fs c idf, c.identityFile = some idf →
      identityCredsFile.load libs fs c = (c, .ok ()) := by
    intro fs c idf hc
    unfold identityCredsFile.load
    rw [hc]
  refine ⟨hcache, ?_, ?_, ?_, ?_⟩
  · intro fs1 fs2 c c1 cfg h
    obtain ⟨hload, idf, cfg0, hi, ht, hcfg⟩ :=
      identityCredsFile_TLSConfig_ok_elim libs fs1 c c1 cfg h
    subst hcfg
    unfold identityCredsFile.TLSConfig
    simp only [hcache fs2 c1 idf hi, hi, ht]
  · intro fs1 fs2 c c1 s h
    obtain ⟨hload, idf, hi, ht⟩ :=
      identityCredsFile_SSHClientConfig_ok_elim libs fs1 c c1 s h
    unfold identityCredsFile.SSHClientConfig
    simp only [hcache fs2 c1 idf hi, hi, ht]
  · intro c c1 h
    unfold identityCredsString.load at h ⊢
    cases hc : c.identityFile with
    | some idf =>
      rw [hc] at h
      have h1 : c = c1 := congrArg Prod.fst h
      subst h1
      rw [hc]
    | none =>
      rw [hc] at h
      cases hr : libs.fromString c.content with
      | ok idf =>
        simp only [hr] at h
        have h1 : ({ c with identityFile := some idf } : identityCredsString)
            = c1 := congrArg Prod.fst h
        subst h1
        simp
      | error e => simp [hr] at h
  · intro fs d e he
    unfold DynamicIdentityFileCreds.Reload reloadParse
    simp only [he]

/-- Witness for C10: a first TLSConfig call on a good filesystem caches the
parse; the second call on a filesystem with the file deleted returns the
identical config; the dynamic provider instead fails on the same deleted
filesystem. -/
theorem static_creds_parse_once_witness :
    identityCredsFile.TLSConfig libsOk fsGood cfW =
      (cf1W, .ok (configureTLSBody emptyTLSConfig)) ∧
    identityCredsFile.TLSConfig libsOk fsMissing cf1W =
      (cf1W, .ok (configureTLSBody emptyTLSConfig)) ∧
    (DynamicIdentityFileCreds.Reload libsOk fsMissing d1W).2 =
      .error (.loader (.unavailable "io")) :=
  ⟨rfl,
   (static_creds_parse_once libsOk).2.1 fsGood fsMissing cfW cf1W
     (configureTLSBody emptyTLSConfig) rfl,
   (static_creds_parse_once libsOk).2.2.2.2 fsMissing d1W
     (.unavailable "io") rfl⟩

/-- The error class a loader failure ought to surface as, per the claim. -/
def loaderClass : LoaderErr → ErrClass
  | .unavailable _ => .unavailableClass
  | .malformed _ => .malformedClass

/-- Formalization of the C7 claim at one call site: the surfaced error of a
failing operation is structured so that its class equals the class of the
loader failure, distinguishing input-malformed from input-unavailable. -/
def surfacesLoaderClass (res : Except Err Unit) (le : LoaderErr) : Prop :=
  ∀ e, res = .error e → errClass e = loaderClass le

/-- C7 counterexample: identityCredsFile.load wraps an unavailable loader
failure (missing file) in trace.BadParameter, the malformed-input class, so
the surfaced error carries the same structure as a parse failure and the
claimed distinction does not exist for this CredentialSource
implementation. -/
theorem creds_error_taxonomy_counterexample :
    libsUnavail.readIdentityFile fsMissing cfW.path =
      .error (.unavailable "io") ∧
    ¬ surfacesLoaderClass (identityCredsFile.load libsUnavail fsMissing cfW).2
        (.unavailable "io") := by
  refine ⟨rfl, fun hcl => ?_⟩
  have h2 : (identityCredsFile.load libsUnavail fsMissing cfW).2 =
      .error (.badParameter ("identity file could not be decoded: " ++
        loaderErrMsg (.unavailable "io"))) := rfl
  have h3 := hcl _ h2
  simp [errClass, loaderClass] at h3

/-- C7 amended: DynamicIdentityFileCreds.Reload passes the loader error
through trace.Wrap unchanged, so its failures keep the structured
distinction between input-unavailable and input-malformed; but the static
identityCredsFile and identityCredsString loaders wrap every load failure,
including an unavailable file, in a trace.BadParameter decode error, so
their surfaced errors always carry the malformed-input class and do not
distinguish the two failure kinds. -/
theorem error_taxonomy_amended (libs : Libs) :
    (∀ fs d e, libs.readIdentityFile fs d.Path = .error e →
      (DynamicIdentityFileCreds.Reload libs fs d).2 = .error (.loader e) ∧
      errClass (.loader e) = loaderClass e) ∧
    (∀ fs c e, c.identityFile = none →
      libs.readIdentityFile fs c.path = .error e →
      (identityCredsFile.load libs fs c).2 =
        .error (.badParameter
          ("identity file could not be decoded: " ++ loaderErrMsg e)) ∧
      errClass (.badParameter
          ("identity file could not be decoded: " ++ loaderErrMsg e)) =
        .malformedClass) ∧
    (∀ c e, c.identityFile = none →
      libs.fromString c.content = .error e →
      (identityCredsString.load libs c).2 =
        .error (.badParameter
          ("identity file could not be decoded: " ++ loaderErrMsg e)) ∧
      errClass (.badParameter
          ("identity file could not be decoded: " ++ loaderErrMsg e)) =
        .malformedClass) := by
  refine ⟨?_, ?_, ?_⟩
  · intro fs d e he
    constructor
    · unfold DynamicIdentityFileCreds.Reload reloadParse
      simp only [he]
    · cases e <;> rfl
  · intro fs c e hc he
    constructor
    · unfold identityCredsFile.load
      simp only [hc, he]
    · rfl
  · intro c e hc he
    constructor
    · unfold identityCredsString.load
      simp only [hc, he]
    · rfl

/-- Witness for the amended C7 on concrete failures: Reload surfaces the
unavailable loader error with the unavailable class, while the static file
loader surfaces a malformed-kind failure as BadParameter. -/
theorem error_taxonomy_amended_witness :
    ((DynamicIdentityFileCreds.Reload libsUnavail fsGood d1W).2 =
        .error (.loader (.unavailable "io")) ∧
      errClass (.loader (.unavailable "io")) =
        loaderClass (.unavailable "io")) ∧
    ((identityCredsFile.load libsParseFail fsGood cfW).2 =
        .error (.badParameter ("identity file could not be decoded: " ++
          loaderErrMsg (.malformed "pem"))) ∧
      errClass (.badParameter ("identity file could not be decoded: " ++
          loaderErrMsg (.malformed "pem"))) = .malformedClass) :=
  ⟨(error_taxonomy_amended libsUnavail).1 fsGood d1W (.unavailable "io") rfl,
   (error_taxonomy_amended libsParseFail).2.1 fsGood cfW (.malformed "pem")
     rfl rfl⟩
